import Mathlib

/-!
Verification of the slab-to-countertop image compositing pipeline.

Shallow embedding of `src/slab_render.py` (function
`slab_to_countertop_replacement` and the entry point `main`) and of the
module-level script `src/attached_assets/replit_countertop_render/main.py`.

Images are modelled as rectangular grids of 8-bit RGBA pixels (channels as
natural numbers, intended range 0..255) with a total pixel function; the
grayscale mask is a single-channel grid.  Calls into the Pillow raster
library are modelled by their documented semantics:

* `Image.resize` produces a buffer of exactly the requested size whose
  content is resampled from the source image (modelled as index remapping;
  every output pixel comes from the source buffer).  Pillow raises
  `ValueError` when a requested dimension is zero.
* `Image.new("RGBA", ...)` is a fully transparent black canvas.
* `Image.paste` writes the pasted image at the given offset, clipped to the
  canvas.
* `Image.crop((l, t, r, b))` has size `(r - l, b - t)` and reads the source
  at offset `(l, t)`, zero-filling outside the source.
* `Image.alpha_composite(bg, fg)` is the standard "over" operator.
  Pillow (AlphaComposite.c) copies the background pixel verbatim where the
  foreground alpha is 0 and the foreground pixel verbatim where it is 255,
  and otherwise computes "over" in fixed point; the model keeps the
  zero-foreground-alpha fast path and is exact over `ℚ` elsewhere (the
  fixed-point rounding is folded into the claims' encoding tolerance).
* `convert("RGB")` drops the alpha channel.
* Python's `int(w / aspect)` on the positive quantities involved is the
  rational floor, modelled with natural division.

Fallible steps (Python exceptions) are modelled with `Except String`;
`slab_to_countertop_replacement` catches them at its single try/except
boundary and returns a `Bool`, exactly as the source does.
-/

namespace SlabRender

/-- An 8-bit RGBA pixel (channel values intended in 0..255). -/
structure RGBA where
  r : ℕ
  g : ℕ
  b : ℕ
  a : ℕ
deriving DecidableEq

/-- A pixel with exact rational channels, used for the results of the
library's blending primitives (`Image.alpha_composite`, `Image.composite`). -/
@[ext]
structure QPix where
  r : ℚ
  g : ℚ
  b : ℚ
  a : ℚ
deriving DecidableEq

/-- An RGBA raster buffer: `width × height` grid with a total pixel map. -/
structure Img where
  width : ℕ
  height : ℕ
  pix : ℕ → ℕ → RGBA

/-- A rational-valued raster buffer (output of a blending primitive). -/
structure QImg where
  width : ℕ
  height : ℕ
  pix : ℕ → ℕ → QPix

/-- A single-channel (grayscale, mode "L") raster buffer. -/
structure Gray where
  width : ℕ
  height : ℕ
  pix : ℕ → ℕ → ℕ

def zeroPix : RGBA := ⟨0, 0, 0, 0⟩

/-- `Image.new("RGBA", (w, h))`: fully transparent black canvas. -/
def newImg (w h : ℕ) : Img := ⟨w, h, fun _ _ => zeroPix⟩

/-- `Image.resize((w, h))`: the result has exactly the requested size and
its content is resampled from the source (index remapping model). -/
def resize (img : Img) (w h : ℕ) : Img :=
  { width := w, height := h,
    pix := fun x y => img.pix (x * img.width / w) (y * img.height / h) }

/-- `mask.resize((w, h))` for a grayscale image. -/
def grayResize (g : Gray) (w h : ℕ) : Gray :=
  { width := w, height := h,
    pix := fun x y => g.pix (x * g.width / w) (y * g.height / h) }

/-- `canvas.paste(tile, (ox, oy))`: writes `tile` at offset `(ox, oy)`,
clipped to the canvas bounds; other pixels are unchanged. -/
def paste (canvas tile : Img) (ox oy : ℕ) : Img :=
  { canvas with
    pix := fun x y =>
      if ox ≤ x ∧ x < ox + tile.width ∧ oy ≤ y ∧ y < oy + tile.height ∧
          x < canvas.width ∧ y < canvas.height then
        tile.pix (x - ox) (y - oy)
      else canvas.pix x y }

/-- `img.crop((left, top, right, bottom))`: size `(right-left, bottom-top)`,
reads the source at offset `(left, top)`, zero-fills outside the source. -/
def crop (img : Img) (left top right bottom : ℕ) : Img :=
  { width := right - left, height := bottom - top,
    pix := fun x y =>
      if left + x < img.width ∧ top + y < img.height then
        img.pix (left + x) (top + y)
      else zeroPix }

/-- `slab_array[:, :, 3] = alpha` (lines 72-78 of `slab_render.py`): replace
the alpha channel of every pixel by the mask value; colors are untouched. -/
def setAlpha (cov : Img) (m : Gray) : Img :=
  { cov with pix := fun x y => { cov.pix x y with a := m.pix x y } }

/-- One pixel of `Image.alpha_composite(bg, fg)`.  Pillow
(AlphaComposite.c) copies the background pixel verbatim when the
foreground alpha is 0, copies the foreground pixel verbatim when it is
255, and otherwise computes the standard "over" operator with alphas
normalized to `[0, 1]` — here exact over `ℚ`.  The 255 fast path agrees
with the exact formula, so only the 0 fast path needs its own branch
(it differs from the formula's `0/0` only when both alphas are 0).
Channels are kept on the 0..255 scale; the output alpha is
`255 * (fa + ba * (1 - fa))` (also in the fast path, where it is `bg.a`). -/
def overPix (bg fg : RGBA) : QPix :=
  if fg.a = 0 then ⟨bg.r, bg.g, bg.b, bg.a⟩
  else
    let fa : ℚ := (fg.a : ℚ) / 255
    let ba : ℚ := (bg.a : ℚ) / 255
    let oa : ℚ := fa + ba * (1 - fa)
    ⟨(fa * fg.r + (1 - fa) * ba * bg.r) / oa,
     (fa * fg.g + (1 - fa) * ba * bg.g) / oa,
     (fa * fg.b + (1 - fa) * ba * bg.b) / oa,
     255 * oa⟩

/-- `Image.alpha_composite(bg, fg)` (requires equal sizes; in the pipeline
the sizes are provably equal, see `c3_dimension_invariant`). -/
def alphaComposite (bg fg : Img) : QImg :=
  { width := bg.width, height := bg.height,
    pix := fun x y => overPix (bg.pix x y) (fg.pix x y) }

/-- `result.convert("RGB")`: drop the alpha channel (represented by forcing
it to the opaque value 255); color channels are unchanged. -/
def convertRGB (q : QImg) : QImg :=
  { q with pix := fun x y => { q.pix x y with a := 255 } }

/-! ### The tiling coverage builder of `slab_render.py` (lines 40-62) -/

/-- Line 40: `target_slab_width = min(kitchen.width // 2, slab.width)`. -/
def target_slab_width (kitchen slab : Img) : ℕ :=
  min (kitchen.width / 2) slab.width

/-- Line 41: `target_slab_height = int(target_slab_width / slab_aspect)`
with `slab_aspect = slab.width / slab.height`, i.e. the floor of
`target_slab_width * slab.height / slab.width`. -/
def target_slab_height (kitchen slab : Img) : ℕ :=
  target_slab_width kitchen slab * slab.height / slab.width

/-- Line 44: `slab_scaled = slab.resize((target_slab_width, target_slab_height))`. -/
def slab_scaled (kitchen slab : Img) : Img :=
  resize slab (target_slab_width kitchen slab) (target_slab_height kitchen slab)

/-- Line 47: `tiles_x = (kitchen.width // target_slab_width) + 2`. -/
def tiles_x (kitchen slab : Img) : ℕ :=
  kitchen.width / target_slab_width kitchen slab + 2

/-- Line 48: `tiles_y = (kitchen.height // target_slab_height) + 2`. -/
def tiles_y (kitchen slab : Img) : ℕ :=
  kitchen.height / target_slab_height kitchen slab + 2

/-- Line 50: `tiled_width = tiles_x * target_slab_width`. -/
def tiled_width (kitchen slab : Img) : ℕ :=
  tiles_x kitchen slab * target_slab_width kitchen slab

/-- Line 51: `tiled_height = tiles_y * target_slab_height`. -/
def tiled_height (kitchen slab : Img) : ℕ :=
  tiles_y kitchen slab * target_slab_height kitchen slab

/-- The inner loop of lines 55-57: for `j = 0 .. n-1`, paste the tile at
`(i * tile.width, j * tile.height)`. -/
def pasteCol (tile : Img) (i : ℕ) (acc : Img) : ℕ → Img
  | 0 => acc
  | n + 1 => paste (pasteCol tile i acc n) tile (i * tile.width) (n * tile.height)

/-- The nested loops of lines 55-57: for `i = 0 .. m-1`, run the inner loop
over `ny` rows of tiles. -/
def pasteGrid (tile : Img) (acc : Img) (ny : ℕ) : ℕ → Img
  | 0 => acc
  | m + 1 => pasteCol tile m (pasteGrid tile acc ny m) ny

/-- Lines 53-57: `slab_tiled = Image.new("RGBA", (tiled_width, tiled_height))`
followed by the tile-pasting loops. -/
def slab_tiled (kitchen slab : Img) : Img :=
  pasteGrid (slab_scaled kitchen slab)
    (newImg (tiled_width kitchen slab) (tiled_height kitchen slab))
    (tiles_y kitchen slab) (tiles_x kitchen slab)

/-- Line 60: `crop_x = (tiled_width - kitchen.width) // 2`. -/
def crop_x (kitchen slab : Img) : ℕ :=
  (tiled_width kitchen slab - kitchen.width) / 2

/-- Line 61: `crop_y = (tiled_height - kitchen.height) // 2`. -/
def crop_y (kitchen slab : Img) : ℕ :=
  (tiled_height kitchen slab - kitchen.height) / 2

/-- Line 62: `slab_resized = slab_tiled.crop((crop_x, crop_y,
crop_x + kitchen.width, crop_y + kitchen.height))` — the Strategy A
coverage buffer. -/
def slab_resized (kitchen slab : Img) : Img :=
  crop (slab_tiled kitchen slab) (crop_x kitchen slab) (crop_y kitchen slab)
    (crop_x kitchen slab + kitchen.width) (crop_y kitchen slab + kitchen.height)

/-- Line 65: `mask_resized = mask.resize(kitchen.size)`. -/
def mask_resized (kitchen : Img) (mask : Gray) : Gray :=
  grayResize mask kitchen.width kitchen.height

/-- Lines 75-78: attach the resized mask as the alpha channel of the
coverage buffer. -/
def slab_masked (kitchen slab : Img) (mask : Gray) : Img :=
  setAlpha (slab_resized kitchen slab) (mask_resized kitchen mask)

/-- Line 81: `result = Image.alpha_composite(kitchen, slab_masked)`. -/
def result (kitchen slab : Img) (mask : Gray) : QImg :=
  alphaComposite kitchen (slab_masked kitchen slab mask)

/-- Line 84: `final_result = result.convert("RGB")` — the pre-encoding
output image. -/
def final_result (kitchen slab : Img) (mask : Gray) : QImg :=
  convertRGB (result kitchen slab mask)

/-- The body of the `try` block of `slab_to_countertop_replacement`
(lines 29-87), after decoding and before saving.  Guards mirror, in program
order, the Python statements that can raise on degenerate sizes:
`slab_aspect = slab.width / slab.height` (line 35, `ZeroDivisionError`),
`kitchen_aspect = kitchen.width / kitchen.height` (line 36),
`target_slab_width / slab_aspect` (line 41, float division by zero), and
`slab.resize` with a zero dimension (line 44, `ValueError`; this also
covers the `// target_slab_width` and `// target_slab_height` divisions of
lines 47-48 and the mask resize of line 65). -/
def renderPipeline (kitchen slab : Img) (mask : Gray) : Except String QImg :=
  if slab.height = 0 then
    Except.error "ZeroDivisionError: division by zero"
  else if kitchen.height = 0 then
    Except.error "ZeroDivisionError: division by zero"
  else if slab.width = 0 then
    Except.error "ZeroDivisionError: float division by zero"
  else if target_slab_width kitchen slab = 0 ∨ target_slab_height kitchen slab = 0 then
    Except.error "ValueError: height and width must be > 0"
  else
    Except.ok (final_result kitchen slab mask)

/-- `slab_to_countertop_replacement` (lines 14-95): decode the three inputs,
run the pipeline, save; every exception is caught at the single top-level
`try/except` boundary and converted to `False`.  Decoding and saving are
fallible external steps, passed in as `Except`-valued data. -/
def slab_to_countertop_replacement (kitchenD slabD : Except String Img)
    (maskD : Except String Gray) (save : QImg → Except String Unit) : Bool :=
  match kitchenD with
  | Except.error _ => false
  | Except.ok kitchen =>
    match slabD with
    | Except.error _ => false
    | Except.ok slab =>
      match maskD with
      | Except.error _ => false
      | Except.ok mask =>
        match renderPipeline kitchen slab mask with
        | Except.error _ => false
        | Except.ok final =>
          match save final with
          | Except.error _ => false
          | Except.ok _ => true

/-! ### The script `src/attached_assets/replit_countertop_render/main.py` -/

/-- Line 19: `slab_resized = slab.resize(kitchen.size)` — the second
coverage variant resizes the texture directly (and in general
non-uniformly) to the base image's size. -/
def assetSlabResized (kitchen slab : Img) : Img :=
  resize slab kitchen.width kitchen.height

/-- `Image.composite(im1, im2, mask)`: per-pixel interpolation between the
two images with the mask as blend weight (`im1` where the mask is 255,
`im2` where it is 0), exact over `ℚ`; requires equal sizes. -/
def compositeSelect (im1 im2 : Img) (mask : Gray) : QImg :=
  { width := im1.width, height := im1.height,
    pix := fun x y =>
      let m : ℚ := (mask.pix x y : ℚ) / 255
      ⟨m * (im1.pix x y).r + (1 - m) * (im2.pix x y).r,
       m * (im1.pix x y).g + (1 - m) * (im2.pix x y).g,
       m * (im1.pix x y).b + (1 - m) * (im2.pix x y).b,
       m * (im1.pix x y).a + (1 - m) * (im2.pix x y).a⟩ }

/-- Line 22: `result = Image.composite(slab_resized, kitchen, mask)`. -/
def assetResult (kitchen slab : Img) (mask : Gray) : QImg :=
  compositeSelect (assetSlabResized kitchen slab) kitchen mask

/-! ### The entry point `main` of `slab_render.py` (lines 97-127) -/

/-- Observable outcome of one invocation of `main`. -/
structure MainResult where
  exitCode : ℕ
  missingReport : Option String
  pipelineRan : Bool
  outputWritten : Bool
deriving DecidableEq

/-- `main` (lines 97-127): with exactly four arguments after the program
name, check the three input paths in order and exit with code 1 at the
first one that does not exist, before any decoding or processing; otherwise
run the pipeline (whose success is abstracted as `pipelineOk`, since it
depends on file contents) and exit 0 on success, 1 on failure. -/
def mainRun (pathExists : String → Bool) (argv : List String)
    (pipelineOk : Bool) : MainResult :=
  match argv with
  | [_program, kitchen_path, slab_path, mask_path, _output_path] =>
    match List.find? (fun p => ! pathExists p) [kitchen_path, slab_path, mask_path] with
    | some p => { exitCode := 1, missingReport := some p,
                  pipelineRan := false, outputWritten := false }
    | none =>
      if pipelineOk then
        { exitCode := 0, missingReport := none,
          pipelineRan := true, outputWritten := true }
      else
        { exitCode := 1, missingReport := none,
          pipelineRan := true, outputWritten := false }
  | _ => { exitCode := 1, missingReport := none,
           pipelineRan := false, outputWritten := false }

/-! ### Definitions following the spec's words, for comparison (refinement
claims C4 and C5).  These are NOT translations of the source; they state
what the spec claims the source computes. -/

/-- Claim C4's words: "the number of whole tiles needed to cover the base
canvas" in the x axis "plus one extra tile of margin", i.e.
`⌈baseWidth / tileWidth⌉ + 1`. -/
def specTiles_x (kitchen slab : Img) : ℕ :=
  (kitchen.width + target_slab_width kitchen slab - 1) /
    target_slab_width kitchen slab + 1

/-- Claim C4's words, y axis: `⌈baseHeight / tileHeight⌉ + 1`. -/
def specTiles_y (kitchen slab : Img) : ℕ :=
  (kitchen.height + target_slab_height kitchen slab - 1) /
    target_slab_height kitchen slab + 1

/-- Claim C5's words: "a uniform scale factor equal to
`max(baseWidth/textureWidth, baseHeight/textureHeight) * 1.5`". -/
def specScaleFactor (kitchen slab : Img) : ℚ :=
  max ((kitchen.width : ℚ) / (slab.width : ℚ))
      ((kitchen.height : ℚ) / (slab.height : ℚ)) * (3 / 2)

/-- Claim C5's words: the intermediate buffer of the claimed scale-to-cover
strategy has the texture's size multiplied by the uniform scale factor
(kept in `ℚ`, so no rounding convention is imposed on the claim). -/
def specScaleDims (kitchen slab : Img) : ℚ × ℚ :=
  ((slab.width : ℚ) * specScaleFactor kitchen slab,
   (slab.height : ℚ) * specScaleFactor kitchen slab)

/-! ### Dimension lemmas -/

@[simp] theorem paste_width (c t : Img) (ox oy : ℕ) :
    (paste c t ox oy).width = c.width := rfl

@[simp] theorem paste_height (c t : Img) (ox oy : ℕ) :
    (paste c t ox oy).height = c.height := rfl

@[simp] theorem pasteCol_width (t : Img) (i : ℕ) (acc : Img) (n : ℕ) :
    (pasteCol t i acc n).width = acc.width := by
  induction n with
  | zero => rfl
  | succ n ih => simpa [pasteCol] using ih

@[simp] theorem pasteCol_height (t : Img) (i : ℕ) (acc : Img) (n : ℕ) :
    (pasteCol t i acc n).height = acc.height := by
  induction n with
  | zero => rfl
  | succ n ih => simpa [pasteCol] using ih

@[simp] theorem pasteGrid_width (t : Img) (acc : Img) (ny m : ℕ) :
    (pasteGrid t acc ny m).width = acc.width := by
  induction m with
  | zero => rfl
  | succ m ih => simpa [pasteGrid] using ih

@[simp] theorem pasteGrid_height (t : Img) (acc : Img) (ny m : ℕ) :
    (pasteGrid t acc ny m).height = acc.height := by
  induction m with
  | zero => rfl
  | succ m ih => simpa [pasteGrid] using ih

@[simp] theorem slab_tiled_width (kitchen slab : Img) :
    (slab_tiled kitchen slab).width = tiled_width kitchen slab := by
  simp [slab_tiled, newImg]

@[simp] theorem slab_tiled_height (kitchen slab : Img) :
    (slab_tiled kitchen slab).height = tiled_height kitchen slab := by
  simp [slab_tiled, newImg]

@[simp] theorem slab_resized_width (kitchen slab : Img) :
    (slab_resized kitchen slab).width = kitchen.width := by
  simp [slab_resized, crop]

@[simp] theorem slab_resized_height (kitchen slab : Img) :
    (slab_resized kitchen slab).height = kitchen.height := by
  simp [slab_resized, crop]

@[simp] theorem final_result_width (kitchen slab : Img) (mask : Gray) :
    (final_result kitchen slab mask).width = kitchen.width := rfl

@[simp] theorem final_result_height (kitchen slab : Img) (mask : Gray) :
    (final_result kitchen slab mask).height = kitchen.height := rfl

@[simp] theorem assetSlabResized_width (kitchen slab : Img) :
    (assetSlabResized kitchen slab).width = kitchen.width := rfl

@[simp] theorem assetSlabResized_height (kitchen slab : Img) :
    (assetSlabResized kitchen slab).height = kitchen.height := rfl

@[simp] theorem assetResult_width (kitchen slab : Img) (mask : Gray) :
    (assetResult kitchen slab mask).width = kitchen.width := rfl

@[simp] theorem assetResult_height (kitchen slab : Img) (mask : Gray) :
    (assetResult kitchen slab mask).height = kitchen.height := rfl

/-! ### Arithmetic facts about the tile counts and the centered crop -/

/-- The tiled canvas strictly exceeds the base by more than one tile width:
`kitchen.width + tsw < tiled_width`. -/
theorem width_add_tsw_lt_tiled_width (kitchen slab : Img)
    (htw : target_slab_width kitchen slab ≠ 0) :
    kitchen.width + target_slab_width kitchen slab < tiled_width kitchen slab := by
  set tw := target_slab_width kitchen slab with htwdef
  have hpos : 0 < tw := Nat.pos_of_ne_zero htw
  have hdm : tw * (kitchen.width / tw) + kitchen.width % tw = kitchen.width :=
    Nat.div_add_mod kitchen.width tw
  have hlt : kitchen.width % tw < tw := Nat.mod_lt _ hpos
  have hexp : tiled_width kitchen slab = kitchen.width / tw * tw + 2 * tw := by
    simp [tiled_width, tiles_x, ← htwdef, Nat.add_mul]
  rw [hexp]
  have hcomm : kitchen.width / tw * tw = tw * (kitchen.width / tw) := Nat.mul_comm _ _
  omega

theorem height_add_tsh_lt_tiled_height (kitchen slab : Img)
    (hth : target_slab_height kitchen slab ≠ 0) :
    kitchen.height + target_slab_height kitchen slab < tiled_height kitchen slab := by
  set th := target_slab_height kitchen slab with hthdef
  have hpos : 0 < th := Nat.pos_of_ne_zero hth
  have hdm : th * (kitchen.height / th) + kitchen.height % th = kitchen.height :=
    Nat.div_add_mod kitchen.height th
  have hlt : kitchen.height % th < th := Nat.mod_lt _ hpos
  have hexp : tiled_height kitchen slab = kitchen.height / th * th + 2 * th := by
    simp [tiled_height, tiles_y, ← hthdef, Nat.add_mul]
  rw [hexp]
  have hcomm : kitchen.height / th * th = th * (kitchen.height / th) := Nat.mul_comm _ _
  omega

/-- Every x coordinate of the crop window is inside the tiled canvas. -/
theorem crop_x_add_lt (kitchen slab : Img)
    (htw : target_slab_width kitchen slab ≠ 0) {x : ℕ} (hx : x < kitchen.width) :
    crop_x kitchen slab + x < tiled_width kitchen slab := by
  have h1 := width_add_tsw_lt_tiled_width kitchen slab htw
  have h2 : crop_x kitchen slab ≤ tiled_width kitchen slab - kitchen.width :=
    Nat.div_le_self _ 2
  omega

theorem crop_y_add_lt (kitchen slab : Img)
    (hth : target_slab_height kitchen slab ≠ 0) {y : ℕ} (hy : y < kitchen.height) :
    crop_y kitchen slab + y < tiled_height kitchen slab := by
  have h1 := height_add_tsh_lt_tiled_height kitchen slab hth
  have h2 : crop_y kitchen slab ≤ tiled_height kitchen slab - kitchen.height :=
    Nat.div_le_self _ 2
  omega

/-- `⌊a / b⌋ + 2` is between `⌈a / b⌉ + 1` and `⌈a / b⌉ + 2`
(with the ceiling written as `(a + b - 1) / b`). -/
theorem floor_add_two_bounds (a b : ℕ) (hb : b ≠ 0) :
    (a + b - 1) / b + 1 ≤ a / b + 2 ∧ a / b + 2 ≤ (a + b - 1) / b + 2 := by
  constructor
  · have h : (a + b - 1) / b ≤ a / b + 1 := by
      have hpos : 0 < b := Nat.pos_of_ne_zero hb
      have hdm : b * (a / b) + a % b = a := Nat.div_add_mod a b
      have hmod : a % b < b := Nat.mod_lt _ hpos
      have hle : a + b - 1 ≤ b * (a / b + 1) + (b - 1) := by
        have : b * (a / b + 1) = b * (a / b) + b := by ring
        omega
      calc (a + b - 1) / b ≤ (b * (a / b + 1) + (b - 1)) / b :=
            Nat.div_le_div_right hle
        _ = a / b + 1 := by
            rw [Nat.mul_add_div hpos]
            simp [Nat.div_eq_of_lt (by omega : b - 1 < b)]
    omega
  · have h : a / b ≤ (a + b - 1) / b := by
      apply Nat.div_le_div_right
      have : 0 < b := Nat.pos_of_ne_zero hb
      omega
    omega

/-! ### The tiled canvas is a periodic grid of the scaled tile -/

/-- Pixels strictly left of column `i` are untouched by `pasteCol`. -/
theorem pasteCol_pix_left (t : Img) (i : ℕ) (acc : Img) (n x y : ℕ)
    (hx : x < i * t.width) :
    (pasteCol t i acc n).pix x y = acc.pix x y := by
  induction n with
  | zero => rfl
  | succ n ih =>
    simp only [pasteCol, paste]
    rw [if_neg (by rintro ⟨h1, -⟩; omega)]
    exact ih

/-- Inside column `i` and below row `n`, `pasteCol` has written the tile
periodically. -/
theorem pasteCol_pix_hit (t : Img) (i : ℕ) (acc : Img) (n x y : ℕ)
    (hth : t.height ≠ 0)
    (hx1 : i * t.width ≤ x) (hx2 : x < i * t.width + t.width)
    (hy : y < n * t.height)
    (hxc : x < acc.width) (hyc : y < acc.height) :
    (pasteCol t i acc n).pix x y = t.pix (x - i * t.width) (y % t.height) := by
  induction n with
  | zero => omega
  | succ n ih =>
    have hy' : y < n * t.height + t.height := by
      rw [Nat.succ_mul] at hy; exact hy
    by_cases hcase : n * t.height ≤ y
    · simp only [pasteCol, paste]
      rw [if_pos ⟨hx1, hx2, hcase, hy', by simpa using hxc, by simpa using hyc⟩]
      congr 1
      have hmod : y % t.height = (t.height * n + (y - n * t.height)) % t.height := by
        congr 1; rw [Nat.mul_comm]; omega
      rw [hmod, Nat.mul_add_mod, Nat.mod_eq_of_lt (by omega)]
    · simp only [pasteCol, paste]
      rw [if_neg (by rintro ⟨-, -, h3, -⟩; exact hcase h3)]
      exact ih (by omega)

/-- In the pasted region, the grid is the tile repeated periodically. -/
theorem pasteGrid_pix (t : Img) (acc : Img) (ny m x y : ℕ)
    (htw : t.width ≠ 0) (hth : t.height ≠ 0)
    (hx : x < m * t.width) (hy : y < ny * t.height)
    (hxc : x < acc.width) (hyc : y < acc.height) :
    (pasteGrid t acc ny m).pix x y = t.pix (x % t.width) (y % t.height) := by
  induction m with
  | zero => omega
  | succ m ih =>
    have hx' : x < m * t.width + t.width := by
      rw [Nat.succ_mul] at hx; exact hx
    by_cases hcase : m * t.width ≤ x
    · simp only [pasteGrid]
      rw [pasteCol_pix_hit t m _ ny x y hth hcase hx' hy
        (by simpa using hxc) (by simpa using hyc)]
      congr 1
      have hmod : x % t.width = (t.width * m + (x - m * t.width)) % t.width := by
        congr 1; rw [Nat.mul_comm]; omega
      rw [hmod, Nat.mul_add_mod, Nat.mod_eq_of_lt (by omega)]
    · simp only [pasteGrid]
      rw [pasteCol_pix_left t m _ ny x y (by omega)]
      exact ih (by omega)

@[simp] theorem slab_scaled_width (kitchen slab : Img) :
    (slab_scaled kitchen slab).width = target_slab_width kitchen slab := rfl

@[simp] theorem slab_scaled_height (kitchen slab : Img) :
    (slab_scaled kitchen slab).height = target_slab_height kitchen slab := rfl

/-- Lines 53-57 produce the scaled tile repeated periodically over the
whole tiled canvas (no transparent padding pixel survives anywhere). -/
theorem slab_tiled_pix (kitchen slab : Img)
    (htw : target_slab_width kitchen slab ≠ 0)
    (hth : target_slab_height kitchen slab ≠ 0)
    (x y : ℕ) (hx : x < tiled_width kitchen slab) (hy : y < tiled_height kitchen slab) :
    (slab_tiled kitchen slab).pix x y =
      (slab_scaled kitchen slab).pix (x % target_slab_width kitchen slab)
        (y % target_slab_height kitchen slab) := by
  unfold slab_tiled
  exact pasteGrid_pix (slab_scaled kitchen slab) _ _ _ x y htw hth
    (by simpa [tiled_width] using hx) (by simpa [tiled_height] using hy)
    (by simpa [newImg] using hx) (by simpa [newImg] using hy)

/-- Line 62: inside the base rectangle, the coverage buffer reads the tiled
canvas at the centered-crop offset (the window never leaves the canvas). -/
theorem slab_resized_pix_tiled (kitchen slab : Img)
    (htw : target_slab_width kitchen slab ≠ 0)
    (hth : target_slab_height kitchen slab ≠ 0)
    (x y : ℕ) (hx : x < kitchen.width) (hy : y < kitchen.height) :
    (slab_resized kitchen slab).pix x y =
      (slab_tiled kitchen slab).pix (crop_x kitchen slab + x) (crop_y kitchen slab + y) := by
  unfold slab_resized crop
  simp only
  rw [if_pos]
  constructor
  · simpa using crop_x_add_lt kitchen slab htw hx
  · simpa using crop_y_add_lt kitchen slab hth hy

/-- The Strategy A coverage buffer is the scaled tile repeated periodically,
read at the centered-crop offset: every coverage pixel is a pixel of the
scaled texture. -/
theorem slab_resized_pix (kitchen slab : Img)
    (htw : target_slab_width kitchen slab ≠ 0)
    (hth : target_slab_height kitchen slab ≠ 0)
    (x y : ℕ) (hx : x < kitchen.width) (hy : y < kitchen.height) :
    (slab_resized kitchen slab).pix x y =
      (slab_scaled kitchen slab).pix
        ((crop_x kitchen slab + x) % target_slab_width kitchen slab)
        ((crop_y kitchen slab + y) % target_slab_height kitchen slab) := by
  rw [slab_resized_pix_tiled kitchen slab htw hth x y hx hy]
  exact slab_tiled_pix kitchen slab htw hth _ _
    (crop_x_add_lt kitchen slab htw hx) (crop_y_add_lt kitchen slab hth hy)

/-! ### The "over" operator at the alpha values the pipeline produces -/

/-- Over an opaque background, "over" is the exact linear blend weighted by
the foreground alpha, and the output is opaque. -/
theorem overPix_opaque_bg (bg fg : RGBA) (h : bg.a = 255) :
    overPix bg fg =
      ⟨((fg.a : ℚ) / 255) * fg.r + (1 - (fg.a : ℚ) / 255) * bg.r,
       ((fg.a : ℚ) / 255) * fg.g + (1 - (fg.a : ℚ) / 255) * bg.g,
       ((fg.a : ℚ) / 255) * fg.b + (1 - (fg.a : ℚ) / 255) * bg.b,
       255⟩ := by
  by_cases h0 : fg.a = 0
  · have hfa : (fg.a : ℚ) / 255 = 0 := by rw [h0]; norm_num
    simp only [overPix, if_pos h0, hfa, h, QPix.mk.injEq]
    refine ⟨by ring, by ring, by ring, by norm_num⟩
  · have hba : (bg.a : ℚ) / 255 = 1 := by rw [h]; norm_num
    simp only [overPix, if_neg h0, hba]
    have h1 : (fg.a : ℚ) / 255 + 1 * (1 - (fg.a : ℚ) / 255) = 1 := by ring
    rw [h1]
    simp only [QPix.mk.injEq]
    refine ⟨by ring, by ring, by ring, by norm_num⟩

/-- A fully opaque foreground replaces the background entirely. -/
theorem overPix_opaque_fg (bg fg : RGBA) (h : fg.a = 255) :
    overPix bg fg = ⟨fg.r, fg.g, fg.b, 255⟩ := by
  have h0 : ¬ fg.a = 0 := by omega
  have hfa : (fg.a : ℚ) / 255 = 1 := by rw [h]; norm_num
  simp only [overPix, if_neg h0, hfa]
  have h1 : (1 : ℚ) + (bg.a : ℚ) / 255 * (1 - 1) = 1 := by ring
  rw [h1]
  simp only [QPix.mk.injEq]
  refine ⟨by ring, by ring, by ring, by norm_num⟩

/-- Pillow's fast path: a fully transparent foreground copies the
background pixel verbatim, color channels included, whatever the
background alpha is. -/
theorem overPix_src_clear (bg fg : RGBA) (h : fg.a = 0) :
    overPix bg fg = ⟨bg.r, bg.g, bg.b, bg.a⟩ := by
  simp [overPix, h]

/-- One pixel of the pre-encoding output: "over" of the alpha-masked
coverage pixel above the base pixel, with the alpha dropped by the RGB
conversion. -/
theorem final_result_pix (kitchen slab : Img) (mask : Gray) (x y : ℕ) :
    (final_result kitchen slab mask).pix x y =
      { overPix (kitchen.pix x y)
          ⟨((slab_resized kitchen slab).pix x y).r,
           ((slab_resized kitchen slab).pix x y).g,
           ((slab_resized kitchen slab).pix x y).b,
           (mask_resized kitchen mask).pix x y⟩ with a := 255 } := rfl

/-! ### Inversion and success of the pipeline's guard structure -/

theorem renderPipeline_inv {kitchen slab : Img} {mask : Gray} {out : QImg}
    (h : renderPipeline kitchen slab mask = Except.ok out) :
    slab.height ≠ 0 ∧ kitchen.height ≠ 0 ∧ slab.width ≠ 0 ∧
      target_slab_width kitchen slab ≠ 0 ∧ target_slab_height kitchen slab ≠ 0 ∧
      out = final_result kitchen slab mask := by
  unfold renderPipeline at h
  split_ifs at h with h1 h2 h3 h4
  push_neg at h4
  exact ⟨h1, h2, h3, h4.1, h4.2, (Except.ok.injEq _ _ ▸ h).symm⟩

theorem renderPipeline_eq_ok {kitchen slab : Img} (mask : Gray)
    (h1 : slab.height ≠ 0) (h2 : kitchen.height ≠ 0) (h3 : slab.width ≠ 0)
    (h4 : target_slab_width kitchen slab ≠ 0)
    (h5 : target_slab_height kitchen slab ≠ 0) :
    renderPipeline kitchen slab mask = Except.ok (final_result kitchen slab mask) := by
  unfold renderPipeline
  rw [if_neg h1, if_neg h2, if_neg h3, if_neg (by rintro (h | h) <;> simp_all)]

/-- When the mask input already has the base image's dimensions, resizing
it is the identity on the stored values. -/
theorem mask_resized_of_same_size (kitchen : Img) (mask : Gray)
    (hw : mask.width = kitchen.width) (hh : mask.height = kitchen.height)
    (hkw : kitchen.width ≠ 0) (hkh : kitchen.height ≠ 0)
    (x y : ℕ) :
    (mask_resized kitchen mask).pix x y = mask.pix x y := by
  unfold mask_resized grayResize
  simp only [hw, hh]
  rw [Nat.mul_div_cancel _ (Nat.pos_of_ne_zero hkw),
    Nat.mul_div_cancel _ (Nat.pos_of_ne_zero hkh)]

/-! ### Claim theorems -/

/-- Claim C1 (confirmed).  Per-pixel blend correctness: for every base
image `B` and coverage layer `C` of identical size and every mask value
in `[0, 255]`, with the base fully opaque, the pre-encoding composited
output satisfies `out[c] = (m/255) * C[c] + (1 - m/255) * B[c]` for each
color channel — the standard "over" compositing with an opaque background,
here exact (epsilon 0 before encoding). -/
theorem c1_blend_correct (B C : Img) (mask : Gray)
    (hw : C.width = B.width) (hh : C.height = B.height)
    (hop : ∀ x, x < B.width → ∀ y, y < B.height → (B.pix x y).a = 255)
    (x y : ℕ) (hx : x < B.width) (hy : y < B.height)
    (hm : mask.pix x y ≤ 255) :
    ((convertRGB (alphaComposite B (setAlpha C mask))).pix x y).r =
        ((mask.pix x y : ℚ) / 255) * ((C.pix x y).r : ℚ) +
          (1 - (mask.pix x y : ℚ) / 255) * ((B.pix x y).r : ℚ) ∧
    ((convertRGB (alphaComposite B (setAlpha C mask))).pix x y).g =
        ((mask.pix x y : ℚ) / 255) * ((C.pix x y).g : ℚ) +
          (1 - (mask.pix x y : ℚ) / 255) * ((B.pix x y).g : ℚ) ∧
    ((convertRGB (alphaComposite B (setAlpha C mask))).pix x y).b =
        ((mask.pix x y : ℚ) / 255) * ((C.pix x y).b : ℚ) +
          (1 - (mask.pix x y : ℚ) / 255) * ((B.pix x y).b : ℚ) := by
  have ha := hop x hx y hy
  have hpix : (convertRGB (alphaComposite B (setAlpha C mask))).pix x y =
      { overPix (B.pix x y) { C.pix x y with a := mask.pix x y } with a := 255 } := rfl
  rw [hpix, overPix_opaque_bg _ _ ha]
  exact ⟨rfl, rfl, rfl⟩

def wBase1 : Img := ⟨2, 2, fun _ _ => ⟨100, 150, 200, 255⟩⟩
def wCov1 : Img := ⟨2, 2, fun _ _ => ⟨50, 60, 70, 10⟩⟩
def wMask1 : Gray := ⟨2, 2, fun _ _ => 100⟩

/-- Claim C1 witness at a concrete base, coverage and mask. -/
theorem c1_blend_correct_witness :
    ((convertRGB (alphaComposite wBase1 (setAlpha wCov1 wMask1))).pix 0 0).r =
        ((wMask1.pix 0 0 : ℚ) / 255) * ((wCov1.pix 0 0).r : ℚ) +
          (1 - (wMask1.pix 0 0 : ℚ) / 255) * ((wBase1.pix 0 0).r : ℚ) ∧
    ((convertRGB (alphaComposite wBase1 (setAlpha wCov1 wMask1))).pix 0 0).g =
        ((wMask1.pix 0 0 : ℚ) / 255) * ((wCov1.pix 0 0).g : ℚ) +
          (1 - (wMask1.pix 0 0 : ℚ) / 255) * ((wBase1.pix 0 0).g : ℚ) ∧
    ((convertRGB (alphaComposite wBase1 (setAlpha wCov1 wMask1))).pix 0 0).b =
        ((wMask1.pix 0 0 : ℚ) / 255) * ((wCov1.pix 0 0).b : ℚ) +
          (1 - (wMask1.pix 0 0 : ℚ) / 255) * ((wBase1.pix 0 0).b : ℚ) :=
  c1_blend_correct wBase1 wCov1 wMask1 rfl rfl (by decide) 0 0 (by decide) (by decide)
    (by decide)

/-- Claim C3 (confirmed).  Dimension invariant: every successful run yields
an output of exactly the base image's size, and the coverage buffer of
either strategy (the tile-and-crop `slab_resized`, and the direct resize of
the attached-assets script) has exactly the base image's dimensions,
regardless of texture and mask dimensions. -/
theorem c3_dimension_invariant (kitchen slab : Img) (mask : Gray) (out : QImg)
    (h : renderPipeline kitchen slab mask = Except.ok out) :
    out.width = kitchen.width ∧ out.height = kitchen.height ∧
    (slab_resized kitchen slab).width = kitchen.width ∧
    (slab_resized kitchen slab).height = kitchen.height ∧
    (assetSlabResized kitchen slab).width = kitchen.width ∧
    (assetSlabResized kitchen slab).height = kitchen.height := by
  obtain ⟨-, -, -, -, -, rfl⟩ := renderPipeline_inv h
  exact ⟨rfl, rfl, by simp, by simp, rfl, rfl⟩

def wKit3 : Img := ⟨2, 2, fun _ _ => ⟨9, 9, 9, 255⟩⟩
def wSlab3 : Img := ⟨1, 1, fun _ _ => ⟨1, 2, 3, 255⟩⟩
def wMask3 : Gray := ⟨2, 2, fun _ _ => 0⟩

/-- Claim C3 witness at a concrete successful run. -/
theorem c3_dimension_invariant_witness :
    (final_result wKit3 wSlab3 wMask3).width = wKit3.width ∧
    (final_result wKit3 wSlab3 wMask3).height = wKit3.height ∧
    (slab_resized wKit3 wSlab3).width = wKit3.width ∧
    (slab_resized wKit3 wSlab3).height = wKit3.height ∧
    (assetSlabResized wKit3 wSlab3).width = wKit3.width ∧
    (assetSlabResized wKit3 wSlab3).height = wKit3.height :=
  c3_dimension_invariant wKit3 wSlab3 wMask3 (final_result wKit3 wSlab3 wMask3)
    (renderPipeline_eq_ok wMask3 (by decide) (by decide) (by decide) (by decide) (by decide))

/-- Claim C6 (confirmed).  Mask applier contract and frame condition: after
mask application every pixel's alpha equals the resized mask value used
as-is in 0..255 (no thresholding), the color channels are exactly what the
coverage buffer held before, and the buffer's dimensions are unchanged. -/
theorem c6_mask_applier (kitchen slab : Img) (mask : Gray) (x y : ℕ)
    (hx : x < kitchen.width) (hy : y < kitchen.height) :
    ((slab_masked kitchen slab mask).pix x y).a = (mask_resized kitchen mask).pix x y ∧
    ((slab_masked kitchen slab mask).pix x y).r = ((slab_resized kitchen slab).pix x y).r ∧
    ((slab_masked kitchen slab mask).pix x y).g = ((slab_resized kitchen slab).pix x y).g ∧
    ((slab_masked kitchen slab mask).pix x y).b = ((slab_resized kitchen slab).pix x y).b ∧
    (slab_masked kitchen slab mask).width = (slab_resized kitchen slab).width ∧
    (slab_masked kitchen slab mask).height = (slab_resized kitchen slab).height :=
  ⟨rfl, rfl, rfl, rfl, rfl, rfl⟩

def wKit6 : Img := ⟨2, 2, fun _ _ => ⟨9, 9, 9, 255⟩⟩
def wSlab6 : Img := ⟨1, 1, fun _ _ => ⟨11, 22, 33, 44⟩⟩
def wMask6 : Gray := ⟨2, 2, fun _ _ => 137⟩

/-- Claim C6 witness: a partial mask value (137) is carried into the alpha
channel unchanged, colors untouched. -/
theorem c6_mask_applier_witness :
    ((slab_masked wKit6 wSlab6 wMask6).pix 0 0).a = (mask_resized wKit6 wMask6).pix 0 0 ∧
    ((slab_masked wKit6 wSlab6 wMask6).pix 0 0).r = ((slab_resized wKit6 wSlab6).pix 0 0).r ∧
    ((slab_masked wKit6 wSlab6 wMask6).pix 0 0).g = ((slab_resized wKit6 wSlab6).pix 0 0).g ∧
    ((slab_masked wKit6 wSlab6 wMask6).pix 0 0).b = ((slab_resized wKit6 wSlab6).pix 0 0).b ∧
    (slab_masked wKit6 wSlab6 wMask6).width = (slab_resized wKit6 wSlab6).width ∧
    (slab_masked wKit6 wSlab6 wMask6).height = (slab_resized wKit6 wSlab6).height :=
  c6_mask_applier wKit6 wSlab6 wMask6 0 0 (by decide) (by decide)

/-- Claim C7 (confirmed).  Missing-file handling: whenever at least one of
the three input paths does not exist, `main` exits with code 1 before any
decoding or processing, reports a missing file (one that indeed does not
exist), and produces no output file. -/
theorem c7_missing_file (pathExists : String → Bool)
    (program kitchen_path slab_path mask_path output_path : String) (pipelineOk : Bool)
    (h : pathExists kitchen_path = false ∨ pathExists slab_path = false ∨
      pathExists mask_path = false) :
    (mainRun pathExists [program, kitchen_path, slab_path, mask_path, output_path]
        pipelineOk).exitCode = 1 ∧
    (mainRun pathExists [program, kitchen_path, slab_path, mask_path, output_path]
        pipelineOk).pipelineRan = false ∧
    (mainRun pathExists [program, kitchen_path, slab_path, mask_path, output_path]
        pipelineOk).outputWritten = false ∧
    ∃ p, (mainRun pathExists [program, kitchen_path, slab_path, mask_path, output_path]
        pipelineOk).missingReport = some p ∧ pathExists p = false := by
  cases hf : List.find? (fun p => ! pathExists p) [kitchen_path, slab_path, mask_path] with
  | none =>
    exfalso
    rw [List.find?_eq_none] at hf
    rcases h with h | h | h
    · exact absurd (by simp [h] : (! pathExists kitchen_path) = true) (hf _ (by simp))
    · exact absurd (by simp [h] : (! pathExists slab_path) = true) (hf _ (by simp))
    · exact absurd (by simp [h] : (! pathExists mask_path) = true) (hf _ (by simp))
  | some p =>
    have hp := List.find?_some hf
    have hp' : pathExists p = false := by simpa using hp
    refine ⟨?_, ?_, ?_, p, ?_, hp'⟩ <;> simp [mainRun, hf]

def wFS7 : String → Bool := fun _ => false

/-- Claim C7 witness: no input file exists. -/
theorem c7_missing_file_witness :
    (mainRun wFS7 ["prog", "kitchen.jpg", "slab.jpg", "mask.png", "out.jpg"]
        true).exitCode = 1 ∧
    (mainRun wFS7 ["prog", "kitchen.jpg", "slab.jpg", "mask.png", "out.jpg"]
        true).pipelineRan = false ∧
    (mainRun wFS7 ["prog", "kitchen.jpg", "slab.jpg", "mask.png", "out.jpg"]
        true).outputWritten = false ∧
    ∃ p, (mainRun wFS7 ["prog", "kitchen.jpg", "slab.jpg", "mask.png", "out.jpg"]
        true).missingReport = some p ∧ wFS7 p = false :=
  c7_missing_file wFS7 "prog" "kitchen.jpg" "slab.jpg" "mask.png" "out.jpg" true
    (Or.inl rfl)

/-- Claim C8 (confirmed).  Top-level error boundary:
`slab_to_countertop_replacement` is a total Boolean function (in the model,
every internal failure is a caught `Except.error`, so no exception escapes);
it returns `true` exactly when every stage — decoding of the three inputs,
the processing pipeline, and the save — succeeds, and `false` otherwise,
with no retry and no other error information in the return value. -/
theorem c8_error_boundary (kitchenD slabD : Except String Img) (maskD : Except String Gray)
    (save : QImg → Except String Unit) :
    slab_to_countertop_replacement kitchenD slabD maskD save = true ↔
      ∃ kitchen slab mask out,
        kitchenD = Except.ok kitchen ∧ slabD = Except.ok slab ∧
        maskD = Except.ok mask ∧ renderPipeline kitchen slab mask = Except.ok out ∧
        save out = Except.ok () := by
  rcases kitchenD with e | kitchen
  · simp [slab_to_countertop_replacement]
  rcases slabD with e | slab
  · simp [slab_to_countertop_replacement]
  rcases maskD with e | mask
  · simp [slab_to_countertop_replacement]
  rcases hp : renderPipeline kitchen slab mask with e | final
  · simp [slab_to_countertop_replacement, hp]
  rcases hs : save final with e | u
  · simp [slab_to_countertop_replacement, hp, hs]
  · simp [slab_to_countertop_replacement, hp, hs]

/-- Claim C10 (confirmed).  Implicit degenerate-aspect failure: for valid
nonzero-size decodable inputs, whenever the texture's aspect ratio
`width/height` exceeds the chosen tile width `min(baseWidth // 2,
textureWidth)`, the computed tile height is 0, the pipeline raises at the
zero-size resize, and `slab_to_countertop_replacement` returns `false`. -/
theorem c10_degenerate_aspect (kitchen slab : Img) (mask : Gray)
    (save : QImg → Except String Unit)
    (hkw : 1 ≤ kitchen.width) (hkh : 1 ≤ kitchen.height)
    (hsw : 1 ≤ slab.width) (hsh : 1 ≤ slab.height)
    (hasp : (target_slab_width kitchen slab : ℚ) < (slab.width : ℚ) / (slab.height : ℚ)) :
    target_slab_height kitchen slab = 0 ∧
    renderPipeline kitchen slab mask =
      Except.error "ValueError: height and width must be > 0" ∧
    slab_to_countertop_replacement (Except.ok kitchen) (Except.ok slab)
      (Except.ok mask) save = false := by
  have hshq : (0 : ℚ) < (slab.height : ℚ) := by exact_mod_cast hsh
  have hmul : (target_slab_width kitchen slab : ℚ) * (slab.height : ℚ) < (slab.width : ℚ) :=
    (lt_div_iff₀ hshq).mp hasp
  have hnat : target_slab_width kitchen slab * slab.height < slab.width := by
    exact_mod_cast hmul
  have hth : target_slab_height kitchen slab = 0 := Nat.div_eq_of_lt hnat
  have herr : renderPipeline kitchen slab mask =
      Except.error "ValueError: height and width must be > 0" := by
    unfold renderPipeline
    rw [if_neg (by omega), if_neg (by omega), if_neg (by omega), if_pos (Or.inr hth)]
  refine ⟨hth, herr, ?_⟩
  simp [slab_to_countertop_replacement, herr]

def wKit10 : Img := ⟨10, 10, fun _ _ => ⟨120, 120, 120, 255⟩⟩
def wSlab10 : Img := ⟨100, 2, fun _ _ => ⟨10, 20, 30, 255⟩⟩
def wMask10 : Gray := ⟨10, 10, fun _ _ => 255⟩

/-- Claim C10 witness: a 100×2 texture against a 10×10 base (aspect 50,
tile width 5) makes the pipeline fail and the function return `false`. -/
theorem c10_degenerate_aspect_witness :
    target_slab_height wKit10 wSlab10 = 0 ∧
    renderPipeline wKit10 wSlab10 wMask10 =
      Except.error "ValueError: height and width must be > 0" ∧
    slab_to_countertop_replacement (Except.ok wKit10) (Except.ok wSlab10)
      (Except.ok wMask10) (fun _ => Except.ok ()) = false :=
  c10_degenerate_aspect wKit10 wSlab10 wMask10 (fun _ => Except.ok ())
    (by decide) (by decide) (by decide) (by decide)
    (by norm_num [target_slab_width, wKit10, wSlab10])

/-- Claim C2 (confirmed).  Mask boundary property: for every successful
run, if the (resized) mask is 0 at every pixel the pre-encoding output is
pixel-identical to the base image — for any base, opaque or not, since
Pillow's alpha_composite copies the background pixel verbatim where the
foreground alpha is 0 — and if the mask is 255 at every pixel the
pre-encoding output equals the coverage layer. -/
theorem c2_mask_boundary (kitchen slab : Img) (mask : Gray) (out : QImg)
    (h : renderPipeline kitchen slab mask = Except.ok out) :
    ((∀ x, x < kitchen.width → ∀ y, y < kitchen.height →
        (mask_resized kitchen mask).pix x y = 0) →
      ∀ x, x < kitchen.width → ∀ y, y < kitchen.height →
        (out.pix x y).r = ((kitchen.pix x y).r : ℚ) ∧
        (out.pix x y).g = ((kitchen.pix x y).g : ℚ) ∧
        (out.pix x y).b = ((kitchen.pix x y).b : ℚ)) ∧
    ((∀ x, x < kitchen.width → ∀ y, y < kitchen.height →
        (mask_resized kitchen mask).pix x y = 255) →
      ∀ x, x < kitchen.width → ∀ y, y < kitchen.height →
        (out.pix x y).r = (((slab_resized kitchen slab).pix x y).r : ℚ) ∧
        (out.pix x y).g = (((slab_resized kitchen slab).pix x y).g : ℚ) ∧
        (out.pix x y).b = (((slab_resized kitchen slab).pix x y).b : ℚ)) := by
  obtain ⟨-, -, -, -, -, rfl⟩ := renderPipeline_inv h
  constructor
  · intro hm0 x hx y hy
    have h0 := hm0 x hx y hy
    rw [final_result_pix, h0, overPix_src_clear _ _ rfl]
    exact ⟨rfl, rfl, rfl⟩
  · intro hm255 x hx y hy
    have h255 := hm255 x hx y hy
    rw [final_result_pix, h255, overPix_opaque_fg _ _ rfl]
    exact ⟨rfl, rfl, rfl⟩

def wKit2 : Img := ⟨2, 2, fun x y => if x = 0 ∧ y = 0 then ⟨20, 30, 40, 0⟩ else ⟨20, 30, 40, 255⟩⟩
def wSlab2 : Img := ⟨1, 1, fun _ _ => ⟨10, 20, 30, 255⟩⟩
def wMask2 : Gray := ⟨2, 2, fun _ _ => 0⟩
def wMask2b : Gray := ⟨2, 2, fun _ _ => 255⟩

/-- Claim C2 witness: both directions at concrete inputs; the mask-0
direction is exercised at a base pixel that is fully transparent, where
the output still matches the base's stored color. -/
theorem c2_mask_boundary_witness :
    (((final_result wKit2 wSlab2 wMask2).pix 0 0).r = ((wKit2.pix 0 0).r : ℚ) ∧
     ((final_result wKit2 wSlab2 wMask2).pix 0 0).g = ((wKit2.pix 0 0).g : ℚ) ∧
     ((final_result wKit2 wSlab2 wMask2).pix 0 0).b = ((wKit2.pix 0 0).b : ℚ)) ∧
    (((final_result wKit2 wSlab2 wMask2b).pix 1 1).r =
        (((slab_resized wKit2 wSlab2).pix 1 1).r : ℚ) ∧
     ((final_result wKit2 wSlab2 wMask2b).pix 1 1).g =
        (((slab_resized wKit2 wSlab2).pix 1 1).g : ℚ) ∧
     ((final_result wKit2 wSlab2 wMask2b).pix 1 1).b =
        (((slab_resized wKit2 wSlab2).pix 1 1).b : ℚ)) := by
  constructor
  · exact (c2_mask_boundary wKit2 wSlab2 wMask2 _
      (renderPipeline_eq_ok wMask2 (by decide) (by decide) (by decide) (by decide)
        (by decide))).1 (by decide) 0 (by decide) 0 (by decide)
  · exact (c2_mask_boundary wKit2 wSlab2 wMask2b _
      (renderPipeline_eq_ok wMask2b (by decide) (by decide) (by decide) (by decide)
        (by decide))).2 (by decide) 1 (by decide) 1 (by decide)

def xKit4 : Img := ⟨100, 100, fun _ _ => ⟨1, 1, 1, 255⟩⟩
def xSlab4 : Img := ⟨50, 50, fun _ _ => ⟨2, 2, 2, 255⟩⟩

/-- Claim C4 counterexample.  When the tile width divides the base width
evenly (base 100, tile 50), the code uses `100 // 50 + 2 = 4` tiles while
"the number of whole tiles needed to cover plus one extra tile of margin"
is `⌈100/50⌉ + 1 = 3`: the claim's tile-count step is not what the code
computes. -/
theorem c4_tile_count_counterexample :
    target_slab_width xKit4 xSlab4 = 50 ∧
    specTiles_x xKit4 xSlab4 = 3 ∧
    tiles_x xKit4 xSlab4 = 4 ∧
    tiles_x xKit4 xSlab4 ≠ specTiles_x xKit4 xSlab4 := by decide

/-- Claim C4 (corrected).  Amended Strategy A description: tile width is
`min(baseWidth // 2, textureWidth)`; tile height is the truncated
aspect-preserving `tileWidth * textureHeight // textureWidth`; the texture
is resized to exactly that tile size; the canvas uses
`⌊baseDim / tileDim⌋ + 2` tiles per axis — between the number of whole
tiles needed to cover the base plus one and plus two (plus two exactly when
the tile divides the base dimension evenly), always leaving more than one
tile of margin; the tiles form a hard-edged non-overlapping periodic grid
covering the whole canvas; and the canvas is center-cropped to exactly
`baseWidth × baseHeight`. -/
theorem c4_tile_algorithm_amended (kitchen slab : Img)
    (htw : target_slab_width kitchen slab ≠ 0)
    (hth : target_slab_height kitchen slab ≠ 0) :
    target_slab_width kitchen slab = min (kitchen.width / 2) slab.width ∧
    target_slab_height kitchen slab =
      target_slab_width kitchen slab * slab.height / slab.width ∧
    (slab_scaled kitchen slab).width = target_slab_width kitchen slab ∧
    (slab_scaled kitchen slab).height = target_slab_height kitchen slab ∧
    tiles_x kitchen slab = kitchen.width / target_slab_width kitchen slab + 2 ∧
    tiles_y kitchen slab = kitchen.height / target_slab_height kitchen slab + 2 ∧
    specTiles_x kitchen slab ≤ tiles_x kitchen slab ∧
    tiles_x kitchen slab ≤ specTiles_x kitchen slab + 1 ∧
    specTiles_y kitchen slab ≤ tiles_y kitchen slab ∧
    tiles_y kitchen slab ≤ specTiles_y kitchen slab + 1 ∧
    kitchen.width + target_slab_width kitchen slab < tiled_width kitchen slab ∧
    kitchen.height + target_slab_height kitchen slab < tiled_height kitchen slab ∧
    (∀ x, x < tiled_width kitchen slab → ∀ y, y < tiled_height kitchen slab →
      (slab_tiled kitchen slab).pix x y =
        (slab_scaled kitchen slab).pix (x % target_slab_width kitchen slab)
          (y % target_slab_height kitchen slab)) ∧
    (slab_resized kitchen slab).width = kitchen.width ∧
    (slab_resized kitchen slab).height = kitchen.height ∧
    crop_x kitchen slab = (tiled_width kitchen slab - kitchen.width) / 2 ∧
    crop_y kitchen slab = (tiled_height kitchen slab - kitchen.height) / 2 ∧
    (∀ x, x < kitchen.width → ∀ y, y < kitchen.height →
      (slab_resized kitchen slab).pix x y =
        (slab_tiled kitchen slab).pix (crop_x kitchen slab + x)
          (crop_y kitchen slab + y)) := by
  have hbx := floor_add_two_bounds kitchen.width (target_slab_width kitchen slab) htw
  have hby := floor_add_two_bounds kitchen.height (target_slab_height kitchen slab) hth
  refine ⟨rfl, rfl, rfl, rfl, rfl, rfl, hbx.1, hbx.2, hby.1, hby.2,
    width_add_tsw_lt_tiled_width kitchen slab htw,
    height_add_tsh_lt_tiled_height kitchen slab hth,
    fun x hx y hy => slab_tiled_pix kitchen slab htw hth x y hx hy,
    by simp, by simp, rfl, rfl,
    fun x hx y hy => slab_resized_pix_tiled kitchen slab htw hth x y hx hy⟩

def wKit4 : Img := ⟨4, 4, fun _ _ => ⟨3, 3, 3, 255⟩⟩
def wSlab4 : Img := ⟨2, 2, fun x y => ⟨x + 1, y + 1, 5, 255⟩⟩

/-- Claim C4 amended witness at a concrete base and texture. -/
theorem c4_tile_algorithm_amended_witness :
    specTiles_x wKit4 wSlab4 ≤ tiles_x wKit4 wSlab4 ∧
    tiles_x wKit4 wSlab4 ≤ specTiles_x wKit4 wSlab4 + 1 ∧
    (∀ x, x < tiled_width wKit4 wSlab4 → ∀ y, y < tiled_height wKit4 wSlab4 →
      (slab_tiled wKit4 wSlab4).pix x y =
        (slab_scaled wKit4 wSlab4).pix (x % target_slab_width wKit4 wSlab4)
          (y % target_slab_height wKit4 wSlab4)) ∧
    (slab_resized wKit4 wSlab4).width = wKit4.width ∧
    (slab_resized wKit4 wSlab4).height = wKit4.height := by
  obtain ⟨h1, h2, h3, h4, h5, h6, h7, h8, h9, h10, h11, h12, h13, h14, h15, h16,
    h17, h18⟩ := c4_tile_algorithm_amended wKit4 wSlab4 (by decide) (by decide)
  exact ⟨h7, h8, h13, h14, h15⟩

def xKit5 : Img := ⟨100, 100, fun _ _ => ⟨5, 5, 5, 255⟩⟩
def xSlab5 : Img := ⟨50, 25, fun _ _ => ⟨6, 6, 6, 255⟩⟩

/-- Claim C5 counterexample.  The attached-assets script resizes the
texture directly to the base size (here width 100), not by the claimed
uniform factor `max(100/50, 100/25) * 1.5 = 6` (which would give an
intermediate width of 300): the claimed scale-to-cover algorithm is not the
one in the source. -/
theorem c5_scale_to_cover_counterexample :
    ((assetSlabResized xKit5 xSlab5).width : ℚ) = 100 ∧
    (specScaleDims xKit5 xSlab5).1 = 300 ∧
    ((assetSlabResized xKit5 xSlab5).width : ℚ) ≠ (specScaleDims xKit5 xSlab5).1 := by
  refine ⟨by norm_num [assetSlabResized, resize, xKit5], ?_, ?_⟩
  · show (50 : ℚ) * (max ((100 : ℚ) / 50) ((100 : ℚ) / 25) * (3 / 2)) = 300
    rw [show ((100 : ℚ) / 50) = 2 by norm_num, show ((100 : ℚ) / 25) = 4 by norm_num,
      max_eq_right (by norm_num : (2 : ℚ) ≤ 4)]
    norm_num
  · intro hcontra
    rw [show ((assetSlabResized xKit5 xSlab5).width : ℚ) = 100 by
      norm_num [assetSlabResized, resize, xKit5]] at hcontra
    rw [show (specScaleDims xKit5 xSlab5).1 = 300 from ?_] at hcontra
    · norm_num at hcontra
    · show (50 : ℚ) * (max ((100 : ℚ) / 50) ((100 : ℚ) / 25) * (3 / 2)) = 300
      rw [show ((100 : ℚ) / 50) = 2 by norm_num, show ((100 : ℚ) / 25) = 4 by norm_num,
        max_eq_right (by norm_num : (2 : ℚ) ≤ 4)]
      norm_num

/-- Claim C5 (corrected).  Amended Strategy B description: the second
coverage variant resizes the texture directly — in general non-uniformly —
to exactly `baseWidth × baseHeight` (no `1.5` scale factor, no cropping
step), then composites it with the base using the mask as per-pixel
interpolation weight. -/
theorem c5_strategy_b_amended (kitchen slab : Img) (mask : Gray)
    (hmw : mask.width = kitchen.width) (hmh : mask.height = kitchen.height) :
    (assetSlabResized kitchen slab).width = kitchen.width ∧
    (assetSlabResized kitchen slab).height = kitchen.height ∧
    (assetResult kitchen slab mask).width = kitchen.width ∧
    (assetResult kitchen slab mask).height = kitchen.height ∧
    (∀ x y : ℕ,
      (assetResult kitchen slab mask).pix x y =
        ⟨((mask.pix x y : ℚ) / 255) * (((assetSlabResized kitchen slab).pix x y).r : ℚ) +
            (1 - (mask.pix x y : ℚ) / 255) * ((kitchen.pix x y).r : ℚ),
         ((mask.pix x y : ℚ) / 255) * (((assetSlabResized kitchen slab).pix x y).g : ℚ) +
            (1 - (mask.pix x y : ℚ) / 255) * ((kitchen.pix x y).g : ℚ),
         ((mask.pix x y : ℚ) / 255) * (((assetSlabResized kitchen slab).pix x y).b : ℚ) +
            (1 - (mask.pix x y : ℚ) / 255) * ((kitchen.pix x y).b : ℚ),
         ((mask.pix x y : ℚ) / 255) * (((assetSlabResized kitchen slab).pix x y).a : ℚ) +
            (1 - (mask.pix x y : ℚ) / 255) * ((kitchen.pix x y).a : ℚ)⟩) :=
  ⟨rfl, rfl, rfl, rfl, fun _ _ => rfl⟩

def wKit5 : Img := ⟨2, 2, fun _ _ => ⟨40, 50, 60, 255⟩⟩
def wSlab5 : Img := ⟨4, 4, fun _ _ => ⟨70, 80, 90, 255⟩⟩
def wMask5 : Gray := ⟨2, 2, fun _ _ => 128⟩

/-- Claim C5 amended witness at a concrete base, texture and mask. -/
theorem c5_strategy_b_amended_witness :
    (assetSlabResized wKit5 wSlab5).width = wKit5.width ∧
    (assetResult wKit5 wSlab5 wMask5).width = wKit5.width ∧
    (assetResult wKit5 wSlab5 wMask5).pix 0 0 =
      ⟨((wMask5.pix 0 0 : ℚ) / 255) * (((assetSlabResized wKit5 wSlab5).pix 0 0).r : ℚ) +
          (1 - (wMask5.pix 0 0 : ℚ) / 255) * ((wKit5.pix 0 0).r : ℚ),
       ((wMask5.pix 0 0 : ℚ) / 255) * (((assetSlabResized wKit5 wSlab5).pix 0 0).g : ℚ) +
          (1 - (wMask5.pix 0 0 : ℚ) / 255) * ((wKit5.pix 0 0).g : ℚ),
       ((wMask5.pix 0 0 : ℚ) / 255) * (((assetSlabResized wKit5 wSlab5).pix 0 0).b : ℚ) +
          (1 - (wMask5.pix 0 0 : ℚ) / 255) * ((wKit5.pix 0 0).b : ℚ),
       ((wMask5.pix 0 0 : ℚ) / 255) * (((assetSlabResized wKit5 wSlab5).pix 0 0).a : ℚ) +
          (1 - (wMask5.pix 0 0 : ℚ) / 255) * ((wKit5.pix 0 0).a : ℚ)⟩ := by
  obtain ⟨h1, h2, h3, h4, h5⟩ := c5_strategy_b_amended wKit5 wSlab5 wMask5 rfl rfl
  exact ⟨h1, h3, h5 0 0⟩

def xKit9 : Img := ⟨4, 1, fun _ _ => ⟨50, 50, 50, 255⟩⟩
def xSlab9 : Img := ⟨5, 2, fun _ _ => ⟨60, 60, 60, 255⟩⟩
def xMask9 : Gray := ⟨4, 1, fun _ _ => 255⟩

/-- Claim C9 counterexample.  As stated ("for every run in which the mask
is 255 at every pixel and the texture is larger than the base image"), the
claim is false: with a 4×1 base and a 5×2 texture (strictly larger in both
dimensions) and an all-255 mask, the tile height computes to
`⌊2·2/5⌋ = 0`, Strategy A raises at the zero-size resize and yields no
output at all. -/
theorem c9_full_mask_counterexample :
    xKit9.width < xSlab9.width ∧ xKit9.height < xSlab9.height ∧
    (∀ x, x < xKit9.width → ∀ y, y < xKit9.height →
      (mask_resized xKit9 xMask9).pix x y = 255) ∧
    renderPipeline xKit9 xSlab9 xMask9 =
      Except.error "ValueError: height and width must be > 0" := by
  exact ⟨by decide, by decide, by decide, rfl⟩

/-- Claim C9 (corrected).  Amended full-mask texture purity: for every run
with an all-255 mask of the base's size, a texture strictly larger than the
base in both dimensions, and a successful coverage construction (nonzero
tile height), both strategies yield an output of exactly the base
dimensions in which every pixel is derived solely from the (scaled)
texture: Strategy A's output pixels are pixels of the scaled tile (the
centered crop stays inside the fully tiled canvas — no padding pixel, no
base pixel), and Strategy B's output pixels are pixels of the texture. -/
theorem c9_full_mask_amended (kitchen slab : Img) (mask : Gray)
    (hkw : 2 ≤ kitchen.width) (hkh : 1 ≤ kitchen.height)
    (hsw : kitchen.width < slab.width) (hsh : kitchen.height < slab.height)
    (hth : target_slab_height kitchen slab ≠ 0)
    (hmw : mask.width = kitchen.width) (hmh : mask.height = kitchen.height)
    (hm : ∀ x, x < kitchen.width → ∀ y, y < kitchen.height → mask.pix x y = 255) :
    renderPipeline kitchen slab mask = Except.ok (final_result kitchen slab mask) ∧
    (final_result kitchen slab mask).width = kitchen.width ∧
    (final_result kitchen slab mask).height = kitchen.height ∧
    (∀ x, x < kitchen.width → ∀ y, y < kitchen.height →
      ∃ u v, u < target_slab_width kitchen slab ∧ v < target_slab_height kitchen slab ∧
        ((final_result kitchen slab mask).pix x y).r =
          (((slab_scaled kitchen slab).pix u v).r : ℚ) ∧
        ((final_result kitchen slab mask).pix x y).g =
          (((slab_scaled kitchen slab).pix u v).g : ℚ) ∧
        ((final_result kitchen slab mask).pix x y).b =
          (((slab_scaled kitchen slab).pix u v).b : ℚ)) ∧
    (assetResult kitchen slab mask).width = kitchen.width ∧
    (assetResult kitchen slab mask).height = kitchen.height ∧
    (∀ x, x < kitchen.width → ∀ y, y < kitchen.height →
      ∃ u v, u < slab.width ∧ v < slab.height ∧
        ((assetResult kitchen slab mask).pix x y).r = ((slab.pix u v).r : ℚ) ∧
        ((assetResult kitchen slab mask).pix x y).g = ((slab.pix u v).g : ℚ) ∧
        ((assetResult kitchen slab mask).pix x y).b = ((slab.pix u v).b : ℚ) ∧
        ((assetResult kitchen slab mask).pix x y).a = ((slab.pix u v).a : ℚ)) := by
  have hw2 : 0 < kitchen.width / 2 := Nat.div_pos hkw (by omega)
  have htw : target_slab_width kitchen slab ≠ 0 := by
    have : 0 < min (kitchen.width / 2) slab.width := lt_min hw2 (by omega)
    simpa [target_slab_width] using Nat.pos_iff_ne_zero.mp this
  have hok := renderPipeline_eq_ok mask (by omega) (by omega) (by omega) htw hth
  refine ⟨hok, rfl, rfl, ?_, rfl, rfl, ?_⟩
  · intro x hx y hy
    refine ⟨(crop_x kitchen slab + x) % target_slab_width kitchen slab,
            (crop_y kitchen slab + y) % target_slab_height kitchen slab,
            Nat.mod_lt _ (Nat.pos_of_ne_zero htw),
            Nat.mod_lt _ (Nat.pos_of_ne_zero hth), ?_, ?_, ?_⟩ <;>
    · have hmr : (mask_resized kitchen mask).pix x y = 255 := by
        rw [mask_resized_of_same_size kitchen mask hmw hmh (by omega) (by omega)]
        exact hm x hx y hy
      have hcov := slab_resized_pix kitchen slab htw hth x y hx hy
      rw [final_result_pix, hmr, overPix_opaque_fg _ _ rfl, hcov]
  · intro x hx y hy
    refine ⟨x * slab.width / kitchen.width, y * slab.height / kitchen.height, ?_, ?_,
      ?_, ?_, ?_, ?_⟩
    · exact Nat.div_lt_of_lt_mul
        ((Nat.mul_lt_mul_right (by omega : 0 < slab.width)).mpr hx)
    · exact Nat.div_lt_of_lt_mul
        ((Nat.mul_lt_mul_right (by omega : 0 < slab.height)).mpr hy)
    all_goals
      have hm' : mask.pix x y = 255 := hm x hx y hy
      have hq : (assetResult kitchen slab mask).pix x y =
          ⟨((mask.pix x y : ℚ) / 255) *
                (((assetSlabResized kitchen slab).pix x y).r : ℚ) +
              (1 - (mask.pix x y : ℚ) / 255) * ((kitchen.pix x y).r : ℚ),
           ((mask.pix x y : ℚ) / 255) *
                (((assetSlabResized kitchen slab).pix x y).g : ℚ) +
              (1 - (mask.pix x y : ℚ) / 255) * ((kitchen.pix x y).g : ℚ),
           ((mask.pix x y : ℚ) / 255) *
                (((assetSlabResized kitchen slab).pix x y).b : ℚ) +
              (1 - (mask.pix x y : ℚ) / 255) * ((kitchen.pix x y).b : ℚ),
           ((mask.pix x y : ℚ) / 255) *
                (((assetSlabResized kitchen slab).pix x y).a : ℚ) +
              (1 - (mask.pix x y : ℚ) / 255) * ((kitchen.pix x y).a : ℚ)⟩ := rfl
      rw [hq, hm']
      norm_num
      rfl

def wKit9 : Img := ⟨4, 4, fun _ _ => ⟨5, 5, 5, 255⟩⟩
def wSlab9 : Img := ⟨6, 6, fun _ _ => ⟨9, 8, 7, 255⟩⟩
def wMask9 : Gray := ⟨4, 4, fun _ _ => 255⟩

/-- Claim C9 amended witness at a concrete successful full-mask run. -/
theorem c9_full_mask_amended_witness :
    renderPipeline wKit9 wSlab9 wMask9 = Except.ok (final_result wKit9 wSlab9 wMask9) ∧
    (∃ u v, u < target_slab_width wKit9 wSlab9 ∧ v < target_slab_height wKit9 wSlab9 ∧
      ((final_result wKit9 wSlab9 wMask9).pix 0 0).r =
        (((slab_scaled wKit9 wSlab9).pix u v).r : ℚ) ∧
      ((final_result wKit9 wSlab9 wMask9).pix 0 0).g =
        (((slab_scaled wKit9 wSlab9).pix u v).g : ℚ) ∧
      ((final_result wKit9 wSlab9 wMask9).pix 0 0).b =
        (((slab_scaled wKit9 wSlab9).pix u v).b : ℚ)) := by
  have h := c9_full_mask_amended wKit9 wSlab9 wMask9 (by decide) (by decide)
    (by decide) (by decide) (by decide) rfl rfl (by decide)
  exact ⟨h.1, h.2.2.2.1 0 (by decide) 0 (by decide)⟩

end SlabRender
